import Mathlib

/-!
Shallow embedding of the product-recommendation service of the
SalesOptimizer backend (`app/services/recomendacion/sistema_recomendaciones.py`),
together with the ORM rows it reads and writes
(`app/models/{producto,cliente,venta,detalle_venta,recomendacion}.py`).

Modelling conventions:
* Python `float` arithmetic is embedded as exact rational arithmetic (`ℚ`);
  all constants involved (0.4, 0.3, 0.1, 1.0, 100) are exactly representable.
* Python `int` columns are embedded as `ℤ`, except `ventas_ultimo_mes`
  ("number of sales in the last month", default 0, only ever incremented by
  sale processing), a count embedded as `ℕ`.
* Python truthiness tests (`if producto_id:`, `if categoria_actual and ...`)
  are embedded faithfully: `None` and `0` / `""` / empty dict are falsy.
* Python dicts are embedded as association lists with distinct keys, built
  exactly where the source builds them.
* The SQLAlchemy session is embedded as explicit state passing of a `DB`
  record of table contents; `session.add` + `commit` append rows, `rollback`
  returns the pre-call state; a raised exception is an `Except.error`.
-/

/-- Row of the `productos` table (`app/models/producto.py`); the columns the
recommendation service never reads (`descripcion`, `fecha_creacion`) are
omitted. -/
structure Producto where
  id : ℤ
  nombre : String
  precio : ℚ
  stock : ℤ
  categoria : String
  ventas_ultimo_mes : ℕ
  baja_rotacion : Bool
deriving DecidableEq, Repr

/-- Row of the `clientes` table (`app/models/cliente.py`); only `id` is read
by the recommendation service. -/
structure Cliente where
  id : ℤ
  nombre : String
  email : String
deriving DecidableEq, Repr

/-- Row of the `ventas` table (`app/models/venta.py`); the service reads
`id` and `cliente_id`. -/
structure Venta where
  id : ℤ
  cliente_id : ℤ
deriving DecidableEq, Repr

/-- Row of the `detalles_venta` table (`app/models/detalle_venta.py`); the
service reads `venta_id` and `producto_id`. -/
structure DetalleVenta where
  venta_id : ℤ
  producto_id : ℤ
  cantidad : ℕ
deriving DecidableEq, Repr

/-- Row of the `recomendaciones` table (`app/models/recomendacion.py`), as
written by `generar_recomendaciones` (the autoincrement `id` and
`fecha_recomendacion` timestamp are omitted). -/
structure Recomendacion where
  cliente_id : ℤ
  producto_recomendado_id : ℤ
  score : ℚ
  efectiva : Bool
deriving DecidableEq, Repr

/-- The database visible to one SQLAlchemy session: the five table contents. -/
structure DB where
  clientes : List Cliente
  productos : List Producto
  ventas : List Venta
  detalles : List DetalleVenta
  recomendaciones : List Recomendacion
deriving DecidableEq, Repr

/-- One entry of the list returned by `generar_recomendaciones` (the dict
built at lines 210-217 of `sistema_recomendaciones.py`). -/
structure RecDict where
  producto_id : ℤ
  nombre : String
  categoria : String
  precio : ℚ
  score : ℚ
  baja_rotacion : Bool
deriving DecidableEq, Repr

/-- Python truthiness of an `Optional[int]`: `None` and `0` are falsy. -/
def truthyInt : Option ℤ → Bool
  | none => false
  | some n => n != 0

/-- Python truthiness of an `Optional[str]`: `None` and `""` are falsy. -/
def truthyStr : Option String → Bool
  | none => false
  | some s => s != ""

/-- Python slice `l[:k]` for an arbitrary integer `k`: a nonnegative `k`
takes the first `k` elements, a negative `k` drops the last `-k`. -/
def pySliceTo (k : ℤ) (l : List α) : List α :=
  if 0 ≤ k then l.take k.toNat else l.take (l.length - (-k).toNat)

/-- Insertion step of a stable descending sort on the key `key`: `x` goes in
front of the first element whose key is `≤ key x`, so among equal keys the
earlier element of the original list stays first — the behaviour of Python's
stable `list.sort(key=..., reverse=True)`. -/
def insertKeyDesc [LinearOrder β] (key : α → β) (x : α) : List α → List α
  | [] => [x]
  | y :: ys => if key y ≤ key x then x :: y :: ys else y :: insertKeyDesc key x ys

/-- Stable descending insertion sort by `key`; embeds Python's
`list.sort(key=..., reverse=True)`. -/
def sortKeyDesc [LinearOrder β] (key : α → β) : List α → List α
  | [] => []
  | x :: xs => insertKeyDesc key x (sortKeyDesc key xs)

/-- Embeds `_get_client_purchase_history` (lines 29-46): the SQL join of
`productos × detalles_venta × ventas` restricted to the client, projected to
`(producto.id, producto.categoria)`, with `DISTINCT`. -/
def getClientPurchaseHistory (db : DB) (cliente_id : ℤ) : List (ℤ × String) :=
  (db.productos.flatMap fun p =>
    db.detalles.flatMap fun d =>
      db.ventas.filterMap fun v =>
        if d.producto_id == p.id && d.venta_id == v.id && v.cliente_id == cliente_id then
          some (p.id, p.categoria)
        else none).dedup

/-- Embeds `_get_category_preferences` (lines 48-71): counts the purchase
history per category and divides by the total number of purchases; empty
history gives the empty dict. -/
def getCategoryPreferences (db : DB) (cliente_id : ℤ) : List (String × ℚ) :=
  let purchases := getClientPurchaseHistory db cliente_id
  let total_purchases := purchases.length
  if total_purchases = 0 then []
  else
    let cats := purchases.map (fun pr => pr.2)
    cats.dedup.map fun category => (category, (cats.count category : ℚ) / (total_purchases : ℚ))

/-- Embeds the `ventas_con_producto` subquery of
`_get_frequently_bought_together` (lines 84-89): the sale ids of sales
containing the seed product, one row per matching line item (no DISTINCT). -/
def ventasConProducto (db : DB) (producto_id : ℤ) : List ℤ :=
  (db.detalles.filter fun d => d.producto_id == producto_id).map fun d => d.venta_id

/-- Embeds the join underlying the `productos_relacionados` query
(lines 92-102) before grouping: one row per (subquery row, line item) pair
whose sale ids agree and whose product is not the seed, projected to the
product id. -/
def relatedProductOccurrences (db : DB) (producto_id : ℤ) : List ℤ :=
  (ventasConProducto db producto_id).flatMap fun v =>
    (db.detalles.filter fun d => d.venta_id == v && d.producto_id != producto_id).map
      fun d => d.producto_id

/-- Embeds the grouped and frequency-ordered `productos_relacionados` result
(lines 92-102): each related product id with its occurrence count, sorted by
descending frequency. -/
def productosRelacionados (db : DB) (producto_id : ℤ) : List (ℤ × ℕ) :=
  sortKeyDesc (fun pr => pr.2)
    ((relatedProductOccurrences db producto_id).dedup.map fun p =>
      (p, (relatedProductOccurrences db producto_id).count p))

/-- Embeds `max_frequency` (line 107); the fold with base 0 agrees with
Python's `max(...)` on the nonempty list of counts it is applied to. -/
def maxFrequency (db : DB) (producto_id : ℤ) : ℕ :=
  ((productosRelacionados db producto_id).map fun pr => pr.2).foldr max 0

/-- Embeds `_get_frequently_bought_together` (lines 73-108): empty when no
related product exists, otherwise each related product paired with its
count normalised by the maximum count. -/
def getFrequentlyBoughtTogether (db : DB) (producto_id : ℤ) : List (ℤ × ℚ) :=
  if productosRelacionados db producto_id = [] then []
  else
    (productosRelacionados db producto_id).map fun pr =>
      (pr.1, (pr.2 : ℚ) / (maxFrequency db producto_id : ℚ))

/-- The configured score floor, `self.MIN_SCORE` (line 26). -/
def MIN_SCORE : ℚ := 0.1

/-- The configured maximum number of recommendations,
`self.MAX_RECOMMENDATIONS` (line 27). -/
def MAX_RECOMMENDATIONS : ℤ := 10

/-- The score accumulated by `_calculate_recommendation_score` before the
final clamp (lines 129-148): category contribution (exact seed-category
match, else preference weight), recent-sales contribution, and
bought-together contribution, with Python truthiness on the guards. -/
def scoreUnclamped (producto : Producto) (categoria_actual : Option String)
    (categoria_preferences : List (String × ℚ))
    (bought_together_scores : List (ℤ × ℚ)) : ℚ :=
  let score : ℚ := 0.0
  let score :=
    if truthyStr categoria_actual && (producto.categoria == categoria_actual.getD "") then
      score + 0.4
    else if !categoria_preferences.isEmpty
        && (categoria_preferences.lookup producto.categoria).isSome then
      score + 0.4 * (categoria_preferences.lookup producto.categoria).getD 0
    else score
  let score :=
    if producto.ventas_ultimo_mes > 0 then
      score + 0.3 * min ((producto.ventas_ultimo_mes : ℚ) / 100) 1
    else score
  let score :=
    if !bought_together_scores.isEmpty
        && (bought_together_scores.lookup producto.id).isSome then
      score + 0.3 * (bought_together_scores.lookup producto.id).getD 0
    else score
  score

/-- Embeds `_calculate_recommendation_score` (lines 110-150): the unclamped
additive score, clamped by `max(min(score, 1.0), self.MIN_SCORE)`. -/
def calculateRecommendationScore (producto : Producto) (categoria_actual : Option String)
    (categoria_preferences : List (String × ℚ))
    (bought_together_scores : List (ℤ × ℚ)) : ℚ :=
  max (min (scoreUnclamped producto categoria_actual categoria_preferences
    bought_together_scores) 1.0) MIN_SCORE

/-- Embeds lines 183-191 of `generar_recomendaciones`: when a (truthy) seed
product id is given, resolve it — `ValueError` if absent — and return its
category together with the bought-together dict; otherwise the initial
values `None` and `{}`. -/
def seedData (db : DB) (producto_id : Option ℤ) :
    Except String (Option String × List (ℤ × ℚ)) :=
  if truthyInt producto_id then
    match db.productos.find? (fun p => p.id == producto_id.getD 0) with
    | none => .error ("Producto " ++ toString (producto_id.getD 0) ++ " no encontrado")
    | some producto_semilla =>
        .ok (some producto_semilla.categoria,
          getFrequentlyBoughtTogether db (producto_id.getD 0))
  else .ok (none, [])

/-- Embeds lines 193-198: candidate products are those with `stock > 0`,
additionally excluding the seed id when a (truthy) seed was given. -/
def candidateProducts (db : DB) (producto_id : Option ℤ) : List Producto :=
  let productos_query := db.productos.filter fun p => p.stock > 0
  if truthyInt producto_id then
    productos_query.filter fun p => p.id != producto_id.getD 0
  else productos_query

/-- Embeds lines 200-217: the scored recommendation dicts, one per candidate
product, in candidate enumeration order. -/
def scoredCandidates (db : DB) (cliente_id : ℤ) (producto_id : Option ℤ)
    (categoria_actual : Option String) (bought_together_scores : List (ℤ × ℚ)) :
    List RecDict :=
  (candidateProducts db producto_id).map fun producto =>
    { producto_id := producto.id
      nombre := producto.nombre
      categoria := producto.categoria
      precio := producto.precio
      score := calculateRecommendationScore producto categoria_actual
        (getCategoryPreferences db cliente_id) bought_together_scores
      baja_rotacion := producto.baja_rotacion }

/-- Embeds the body of the `try` block of `generar_recomendaciones`
(lines 172-235): client resolution, seed resolution, scoring, the stable
descending sort, the `[:min(limit, MAX_RECOMMENDATIONS)]` slice, and the
persistence of one `Recomendacion` row per returned item followed by
`commit`. An uncaught `ValueError` is an `Except.error`. -/
def generarInner (db : DB) (cliente_id : ℤ) (producto_id : Option ℤ) (limit : ℤ) :
    Except String (List RecDict × DB) :=
  match db.clientes.find? (fun c => c.id == cliente_id) with
  | none => .error ("Cliente " ++ toString cliente_id ++ " no encontrado")
  | some _cliente =>
    match seedData db producto_id with
    | .error e => .error e
    | .ok (categoria_actual, bought_together_scores) =>
      let recomendaciones :=
        scoredCandidates db cliente_id producto_id categoria_actual bought_together_scores
      let recomendaciones := sortKeyDesc (fun r => r.score) recomendaciones
      let recomendaciones := pySliceTo (min limit MAX_RECOMMENDATIONS) recomendaciones
      .ok (recomendaciones,
        { db with recomendaciones := db.recomendaciones ++
            recomendaciones.map fun rec =>
              { cliente_id := cliente_id
                producto_recomendado_id := rec.producto_id
                score := rec.score
                efectiva := false } })

/-- Embeds `generar_recomendaciones` (lines 152-239) including its
`except Exception` clause: any exception escaping the `try` body triggers
`self.db.rollback()` (the pre-call state is kept) and is re-raised wrapped
as `ValueError("Error generando recomendaciones: ...")`. -/
def generar_recomendaciones (db : DB) (cliente_id : ℤ) (producto_id : Option ℤ)
    (limit : ℤ) : Except String (List RecDict) × DB :=
  match generarInner db cliente_id producto_id limit with
  | .ok (recs, db2) => (.ok recs, db2)
  | .error e => (.error ("Error generando recomendaciones: " ++ e), db)

section SortLemmas

variable {α β : Type} [LinearOrder β] (key : α → β)

/-- Inserting with `insertKeyDesc` is a permutation of consing. -/
theorem insertKeyDesc_perm (x : α) (l : List α) :
    List.Perm (insertKeyDesc key x l) (x :: l) := by
  induction l with
  | nil => exact List.Perm.refl _
  | cons y ys ih =>
    rw [insertKeyDesc]
    by_cases h : key y ≤ key x
    · simp [h]
    · simp only [h, if_false]
      exact (ih.cons y).trans (List.Perm.swap x y ys)

/-- `sortKeyDesc` permutes its input. -/
theorem sortKeyDesc_perm (l : List α) :
    List.Perm (sortKeyDesc key l) l := by
  induction l with
  | nil => exact List.Perm.refl _
  | cons x xs ih =>
    rw [sortKeyDesc]
    exact (insertKeyDesc_perm key x (sortKeyDesc key xs)).trans (ih.cons x)

/-- Membership in `insertKeyDesc`. -/
theorem mem_insertKeyDesc {z x : α} {l : List α} :
    z ∈ insertKeyDesc key x l ↔ z = x ∨ z ∈ l := by
  rw [(insertKeyDesc_perm key x l).mem_iff, List.mem_cons]

/-- Inserting into a list sorted in non-increasing key order keeps it sorted. -/
theorem pairwise_insertKeyDesc (x : α) (l : List α)
    (h : l.Pairwise fun a b => key b ≤ key a) :
    (insertKeyDesc key x l).Pairwise fun a b => key b ≤ key a := by
  induction l with
  | nil => simp [insertKeyDesc]
  | cons y ys ih =>
    rw [List.pairwise_cons] at h
    obtain ⟨h1, h2⟩ := h
    rw [insertKeyDesc]
    by_cases hk : key y ≤ key x
    · simp only [hk, if_true]
      refine List.Pairwise.cons ?_ (List.Pairwise.cons h1 h2)
      intro z hz
      rcases List.mem_cons.mp hz with rfl | hz
      · exact hk
      · exact (h1 z hz).trans hk
    · simp only [hk, if_false]
      refine List.Pairwise.cons ?_ (ih h2)
      intro z hz
      rcases (mem_insertKeyDesc key).mp hz with rfl | hz
      · exact le_of_lt (not_le.mp hk)
      · exact h1 z hz

/-- The output of `sortKeyDesc` is sorted in non-increasing key order. -/
theorem pairwise_sortKeyDesc (l : List α) :
    (sortKeyDesc key l).Pairwise fun a b => key b ≤ key a := by
  induction l with
  | nil => simp [sortKeyDesc]
  | cons x xs ih => exact pairwise_insertKeyDesc key x _ ih

/-- Stability of the insertion step: the elements with any fixed key value
`s` are, in order, `x` first when `key x = s`, then those of `l`. -/
theorem filter_insertKeyDesc (s : β) (x : α) (l : List α) :
    (insertKeyDesc key x l).filter (fun a => decide (key a = s)) =
      if key x = s then x :: l.filter (fun a => decide (key a = s))
      else l.filter (fun a => decide (key a = s)) := by
  induction l with
  | nil => by_cases h : key x = s <;> simp [insertKeyDesc, List.filter, h]
  | cons y ys ih =>
    rw [insertKeyDesc]
    by_cases hk : key y ≤ key x
    · rw [if_pos hk]
      by_cases h : key x = s <;> simp [List.filter_cons, h]
    · have hxy : key x < key y := not_le.mp hk
      rw [if_neg hk]
      simp only [List.filter_cons, ih]
      by_cases h : key x = s
      · have hy : ¬ key y = s := by
          intro hy; exact absurd (hy.trans h.symm) (ne_of_gt hxy)
        simp [h, hy]
      · simp [h]

/-- Stability of `sortKeyDesc`: elements sharing any key value keep their
original relative order. -/
theorem filter_sortKeyDesc (s : β) (l : List α) :
    (sortKeyDesc key l).filter (fun a => decide (key a = s)) =
      l.filter (fun a => decide (key a = s)) := by
  induction l with
  | nil => rfl
  | cons x xs ih =>
    rw [sortKeyDesc, filter_insertKeyDesc, ih, List.filter_cons]
    by_cases h : key x = s <;> simp [h]

end SortLemmas

/-- The fold computing Python's `max(...)` over a nonempty list of naturals
yields a member of the list. -/
theorem foldr_max_mem (l : List ℕ) (h : l ≠ []) : l.foldr max 0 ∈ l := by
  induction l with
  | nil => exact absurd rfl h
  | cons a as ih =>
    cases as with
    | nil => simp
    | cons b bs =>
      rcases le_total ((b :: bs).foldr max 0) a with hle | hle
      · simp only [List.foldr_cons] at *
        rw [max_eq_left hle]
        exact List.mem_cons_self a _
      · simp only [List.foldr_cons] at *
        rw [max_eq_right hle]
        exact List.mem_cons_of_mem a (ih (by simp))

/-- Every member of a list of naturals is bounded by the `max` fold. -/
theorem le_foldr_max {x : ℕ} {l : List ℕ} (h : x ∈ l) : x ≤ l.foldr max 0 := by
  induction l with
  | nil => exact absurd h (List.not_mem_nil x)
  | cons a as ih =>
    rcases List.mem_cons.mp h with rfl | h
    · exact le_max_left _ _
    · exact (ih h).trans (le_max_right _ _)

/-- With a nonnegative bound, the Python slice `l[:k]` is a plain `take`. -/
theorem pySliceTo_nonneg {k : ℤ} (hk : 0 ≤ k) (l : List α) :
    pySliceTo k l = l.take k.toNat := by
  simp [pySliceTo, hk]

/-- With a negative bound, the Python slice `l[:k]` keeps all but the
last `-k` elements. -/
theorem pySliceTo_neg {k : ℤ} (hk : k < 0) (l : List α) :
    pySliceTo k l = l.take (l.length - (-k).toNat) := by
  simp [pySliceTo, not_le.mpr hk]

/-- A successful association-list lookup forces a nonempty list. -/
theorem lookup_isEmpty_false {γ : Type} [BEq γ] {l : List (γ × ℚ)} {c : γ} {w : ℚ}
    (h : l.lookup c = some w) : l.isEmpty = false := by
  cases l with
  | nil => simp [List.lookup] at h
  | cons a as => rfl

/-- The candidate products are a sublist of the `productos` table. -/
theorem candidateProducts_sublist (db : DB) (producto_id : Option ℤ) :
    (candidateProducts db producto_id).Sublist db.productos := by
  unfold candidateProducts
  by_cases h : truthyInt producto_id
  · simp only [h, if_true]
    exact (List.filter_sublist _).trans (List.filter_sublist _)
  · simp only [h, if_false]
    exact List.filter_sublist _

/-- Characterisation of a successful run of the `try` body: the client was
found, the seed step succeeded, the returned list is the sliced stable sort
of the scored candidates, and the new state appends exactly one
`Recomendacion` row per returned item. -/
theorem generarInner_ok (db : DB) (cliente_id : ℤ) (producto_id : Option ℤ)
    (limit : ℤ) (recs : List RecDict) (db2 : DB)
    (h : generarInner db cliente_id producto_id limit = .ok (recs, db2)) :
    (db.clientes.find? (fun c => c.id == cliente_id)).isSome = true ∧
    db2 = { db with recomendaciones := db.recomendaciones ++
                      recs.map (fun rec =>
                        { cliente_id := cliente_id
                          producto_recomendado_id := rec.producto_id
                          score := rec.score
                          efectiva := false }) } ∧
    ∃ ca bts, seedData db producto_id = .ok (ca, bts) ∧
      recs = pySliceTo (min limit MAX_RECOMMENDATIONS)
        (sortKeyDesc (fun r => r.score)
          (scoredCandidates db cliente_id producto_id ca bts)) := by
  unfold generarInner at h
  split at h
  · exact absurd h (by simp)
  · split at h
    · exact absurd h (by simp)
    · rename_i cliente hfind ca_bts ca bts hseed
      simp only [Except.ok.injEq, Prod.mk.injEq] at h
      obtain ⟨hrecs, hdb2⟩ := h
      refine ⟨by simp [hfind], ?_, ca, bts, hseed, hrecs.symm⟩
      rw [← hdb2, ← hrecs]

/-- A successful run of `generar_recomendaciones` is a successful run of the
`try` body. -/
theorem generar_ok_inner (db : DB) (cliente_id : ℤ) (producto_id : Option ℤ)
    (limit : ℤ) (recs : List RecDict) (db2 : DB)
    (h : generar_recomendaciones db cliente_id producto_id limit = (Except.ok recs, db2)) :
    generarInner db cliente_id producto_id limit = .ok (recs, db2) := by
  unfold generar_recomendaciones at h
  split at h
  · rename_i v heq
    obtain ⟨recs', db2'⟩ := v
    simp only [Prod.mk.injEq, Except.ok.injEq] at h
    obtain ⟨h1, h2⟩ := h
    rw [heq, h1, h2]
  · simp at h

/-! ## Claim theorems -/

/-- C1: for every candidate product and every combination of seed category,
category-preference mapping and co-purchase affinity mapping, the score
returned by `_calculate_recommendation_score` lies in the closed interval
`[0.1, 1.0]` — the configured floor `MIN_SCORE = 0.1` and the ceiling 1.0. -/
theorem score_within_floor_and_ceiling (producto : Producto)
    (categoria_actual : Option String) (categoria_preferences : List (String × ℚ))
    (bought_together_scores : List (ℤ × ℚ)) :
    0.1 ≤ calculateRecommendationScore producto categoria_actual
        categoria_preferences bought_together_scores ∧
    calculateRecommendationScore producto categoria_actual
        categoria_preferences bought_together_scores ≤ 1.0 := by
  unfold calculateRecommendationScore MIN_SCORE
  exact ⟨le_max_right _ _, max_le (min_le_right _ _) (by norm_num)⟩

/-- A database with no clients at all (used as a concrete failing input). -/
def dbNoClientes : DB :=
  { clientes := [], productos := [], ventas := [], detalles := [], recomendaciones := [] }

/-- C2 counterexample: calling `generar_recomendaciones` for the absent
customer 99999 does not raise the bare customer-not-found error; the
`except Exception` clause has already wrapped it. -/
theorem cliente_not_found_unwrapped_cex :
    (generar_recomendaciones dbNoClientes 99999 none 5).1 ≠
      Except.error "Cliente 99999 no encontrado" := by
  have h : (generar_recomendaciones dbNoClientes 99999 none 5).1 =
      Except.error ("Error generando recomendaciones: " ++
        ("Cliente " ++ toString (99999 : ℤ) ++ " no encontrado")) := rfl
  rw [h]
  intro heq
  exact absurd (Except.error.inj heq) (by decide)

/-- C2 (amended): generating recommendations for a non-existent customer id
raises an error whose message identifies that id, but the NotFound condition
is wrapped inside the generic generation-failed error (the `except` clause at
lines 237-239 catches the `ValueError` raised at line 176); the database is
left unchanged. -/
theorem cliente_not_found_wrapped (db : DB) (cliente_id : ℤ)
    (producto_id : Option ℤ) (limit : ℤ)
    (h : db.clientes.find? (fun c => c.id == cliente_id) = none) :
    generar_recomendaciones db cliente_id producto_id limit =
      (Except.error ("Error generando recomendaciones: " ++
        ("Cliente " ++ toString cliente_id ++ " no encontrado")), db) := by
  unfold generar_recomendaciones generarInner
  rw [h]

/-- C2 witness: the amended statement at the concrete absent customer 77. -/
theorem cliente_not_found_wrapped_witness :
    generar_recomendaciones dbNoClientes 77 none 5 =
      (Except.error ("Error generando recomendaciones: " ++
        ("Cliente " ++ toString (77 : ℤ) ++ " no encontrado")), dbNoClientes) :=
  cliente_not_found_wrapped dbNoClientes 77 none 5 rfl

/-- C3: if the operation fails at any step, the whole call aborts — the
database is exactly the pre-call state (rollback), no recommendation list is
returned, and the surfaced error is the generic generation-failed message
wrapping the underlying cause. -/
theorem generation_failure_rolls_back (db : DB) (cliente_id : ℤ)
    (producto_id : Option ℤ) (limit : ℤ) (e : String)
    (h : (generar_recomendaciones db cliente_id producto_id limit).1 = Except.error e) :
    (generar_recomendaciones db cliente_id producto_id limit).2 = db ∧
    ∃ cause, e = "Error generando recomendaciones: " ++ cause := by
  unfold generar_recomendaciones at *
  split at h
  · simp at h
  · rename_i e' heq
    exact ⟨rfl, e', by simpa using h.symm⟩

/-- C3 witness: the concrete failing call for customer 88 rolls back and
yields the wrapped generic error. -/
theorem generation_failure_rolls_back_witness :
    (generar_recomendaciones dbNoClientes 88 none 5).2 = dbNoClientes ∧
    ∃ cause, "Error generando recomendaciones: Cliente 88 no encontrado" =
      "Error generando recomendaciones: " ++ cause :=
  generation_failure_rolls_back dbNoClientes 88 none 5 _ rfl

/-- C9: a call with `producto_id = 0` behaves exactly as a call with no seed
product — Python's `if producto_id:` treats 0 as falsy, so no product lookup
happens, no not-found error can arise from the absent id 0, no co-purchase
affinities are computed, and no candidate is excluded. -/
theorem producto_id_zero_is_no_seed (db : DB) (cliente_id limit : ℤ) :
    generar_recomendaciones db cliente_id (some 0) limit =
      generar_recomendaciones db cliente_id none limit := rfl

/-- Distributing a conditional increment: `score = score + t if c else score`
equals `score` plus the conditional term. -/
theorem accumulate_ite (c : Prop) [Decidable c] (x t : ℚ) :
    (if c then x + t else x) = x + (if c then t else 0) := by
  split <;> simp

/-- The unclamped score exactly as claim C4 words it: 0.4 on an exact match
of the candidate's category with the seed's category, else 0.4 times the
preference weight when present, plus 0.3 times `min(recent_sales/100, 1)`,
plus 0.3 times the co-purchase affinity when present. Written from the
claim, for comparison with `scoreUnclamped`. -/
def claimedScoreC4 (producto : Producto) (categoria_actual : Option String)
    (categoria_preferences : List (String × ℚ))
    (bought_together_scores : List (ℤ × ℚ)) : ℚ :=
  (if some producto.categoria = categoria_actual then (0.4 : ℚ)
   else match categoria_preferences.lookup producto.categoria with
     | some w => 0.4 * w
     | none => 0)
  + 0.3 * min ((producto.ventas_ultimo_mes : ℚ) / 100) 1
  + (match bought_together_scores.lookup producto.id with
     | some a => 0.3 * a
     | none => 0)

/-- The unclamped score as claim C4 must be amended: the exact-match branch
fires only when the seed category is truthy (present and non-empty), because
line 137 tests `if categoria_actual and ...`. -/
def amendedScoreC4 (producto : Producto) (categoria_actual : Option String)
    (categoria_preferences : List (String × ℚ))
    (bought_together_scores : List (ℤ × ℚ)) : ℚ :=
  (if truthyStr categoria_actual = true ∧ some producto.categoria = categoria_actual then (0.4 : ℚ)
   else match categoria_preferences.lookup producto.categoria with
     | some w => 0.4 * w
     | none => 0)
  + 0.3 * min ((producto.ventas_ultimo_mes : ℚ) / 100) 1
  + (match bought_together_scores.lookup producto.id with
     | some a => 0.3 * a
     | none => 0)

/-- A candidate product whose category is the empty string, with no recent
sales (concrete input refuting claim C4 as stated). -/
def productoCatVacia : Producto :=
  { id := 1, nombre := "p", precio := 1, stock := 1, categoria := "",
    ventas_ultimo_mes := 0, baja_rotacion := false }

/-- C4 counterexample: with a seed product whose category is the empty
string and a candidate of the same (empty) category, the code's accumulated
score is 0 while the claimed formula gives the full 0.4 exact-match weight —
Python's `if categoria_actual and ...` treats `""` as falsy. -/
theorem unclamped_score_formula_cex :
    scoreUnclamped productoCatVacia (some "") [] [] ≠
      claimedScoreC4 productoCatVacia (some "") [] [] := by
  have h0 : scoreUnclamped productoCatVacia (some "") [] [] = 0 := by
    norm_num [scoreUnclamped, productoCatVacia, truthyStr, List.lookup]
  have h4 : claimedScoreC4 productoCatVacia (some "") [] [] = 0.4 := by
    norm_num [claimedScoreC4, productoCatVacia, List.lookup, min_def]
  rw [h0, h4]
  norm_num

/-- C4 (amended): the unclamped score accumulated by
`_calculate_recommendation_score` equals the claimed additive combination,
with the exact-match branch additionally conditioned on the seed category
being truthy (supplied and non-empty). -/
theorem unclamped_score_formula (producto : Producto)
    (categoria_actual : Option String) (categoria_preferences : List (String × ℚ))
    (bought_together_scores : List (ℤ × ℚ)) :
    scoreUnclamped producto categoria_actual categoria_preferences bought_together_scores =
      amendedScoreC4 producto categoria_actual categoria_preferences bought_together_scores := by
  unfold scoreUnclamped amendedScoreC4
  rw [show (0.0 : ℚ) = 0 by norm_num]
  simp only [accumulate_ite, zero_add]
  congr 1
  · congr 1
    · -- category contribution
      by_cases ht : truthyStr categoria_actual = true
      · cases categoria_actual with
        | none => simp [truthyStr] at ht
        | some ca =>
          by_cases hm : producto.categoria = ca
          · simp [ht, hm]
          · rw [if_neg (show ¬(truthyStr (some ca)
                  && (producto.categoria == (some ca : Option String).getD "")) = true by
                simp [hm]),
              if_neg (show ¬(truthyStr (some ca) = true
                  ∧ some producto.categoria = some ca) by simp [hm])]
            rcases hl : categoria_preferences.lookup producto.categoria with _ | w
            · simp [hl]
            · simp [hl, lookup_isEmpty_false hl]
      · have ht' : truthyStr categoria_actual = false := by simpa using ht
        rw [if_neg (show ¬(truthyStr categoria_actual
              && (producto.categoria == categoria_actual.getD "")) = true by
              simp [ht']),
          if_neg (show ¬(truthyStr categoria_actual = true
              ∧ some producto.categoria = categoria_actual) by simp [ht'])]
        rcases hl : categoria_preferences.lookup producto.categoria with _ | w
        · simp [hl]
        · simp [hl, lookup_isEmpty_false hl]
    · -- recent-sales contribution
      by_cases hv : producto.ventas_ultimo_mes > 0
      · simp [hv]
      · have hz : producto.ventas_ultimo_mes = 0 := by omega
        simp [hz]
  · -- bought-together contribution
    rcases hl : bought_together_scores.lookup producto.id with _ | a
    · simp
    · simp [lookup_isEmpty_false hl]

/-- Summing pointwise quotients equals dividing the sum. -/
theorem sum_map_div {γ : Type} (l : List γ) (f : γ → ℚ) (n : ℚ) :
    (l.map fun c => f c / n).sum = (l.map f).sum / n := by
  induction l with
  | nil => simp
  | cons a as ih => simp [ih, add_div]

/-- C7: the category-preference mapping is empty exactly when the purchase
history is empty; each category's weight is (purchases in that category) /
(total purchases); and when non-empty the weights sum to exactly 1. -/
theorem category_preferences_spec (db : DB) (cliente_id : ℤ) :
    (getCategoryPreferences db cliente_id = [] ↔
      getClientPurchaseHistory db cliente_id = []) ∧
    (∀ c w, (c, w) ∈ getCategoryPreferences db cliente_id →
      w = ((((getClientPurchaseHistory db cliente_id).map fun pr => pr.2).count c : ℚ) /
          ((getClientPurchaseHistory db cliente_id).length : ℚ))) ∧
    (getCategoryPreferences db cliente_id ≠ [] →
      ((getCategoryPreferences db cliente_id).map fun pr => pr.2).sum = 1) := by
  by_cases h0 : (getClientPurchaseHistory db cliente_id).length = 0
  · have hnil : getClientPurchaseHistory db cliente_id = [] :=
      List.eq_nil_of_length_eq_zero h0
    refine ⟨?_, ?_, ?_⟩
    · simp [getCategoryPreferences, h0, hnil]
    · intro c w hmem
      simp [getCategoryPreferences, h0] at hmem
    · intro hne
      exact absurd (by simp [getCategoryPreferences, h0]) hne
  · have hprefs : getCategoryPreferences db cliente_id =
        ((getClientPurchaseHistory db cliente_id).map fun pr => pr.2).dedup.map
          fun category =>
            (category,
              ((((getClientPurchaseHistory db cliente_id).map fun pr => pr.2).count
                  category : ℕ) : ℚ) /
                ((getClientPurchaseHistory db cliente_id).length : ℚ)) := by
      unfold getCategoryPreferences
      simp [h0]
    refine ⟨?_, ?_, ?_⟩
    · rw [hprefs]
      constructor
      · intro hmap
        exfalso
        have : getClientPurchaseHistory db cliente_id = [] := by
          have h1 := List.map_eq_nil_iff.mp hmap
          have h2 := (List.dedup_eq_nil _).mp h1
          exact List.map_eq_nil_iff.mp h2
        rw [this] at h0
        exact h0 rfl
      · intro hh
        exact absurd (by rw [hh]; rfl) h0
    · intro c w hmem
      rw [hprefs] at hmem
      obtain ⟨cat, _hcat, heq⟩ := List.mem_map.mp hmem
      injection heq with h1 h2
      rw [← h2, h1]
    · intro _hne
      rw [hprefs, List.map_map]
      have hcomp : ((fun pr : String × ℚ => pr.2) ∘ fun category =>
          (category,
            ((((getClientPurchaseHistory db cliente_id).map fun pr => pr.2).count
                category : ℕ) : ℚ) /
              ((getClientPurchaseHistory db cliente_id).length : ℚ))) =
          fun category =>
            ((((getClientPurchaseHistory db cliente_id).map fun pr => pr.2).count
                category : ℕ) : ℚ) /
              ((getClientPurchaseHistory db cliente_id).length : ℚ) := rfl
      rw [hcomp, sum_map_div]
      have hcast := Nat.cast_list_sum (β := ℚ)
        (((getClientPurchaseHistory db cliente_id).map fun pr => pr.2).dedup.map
          fun category =>
            ((getClientPurchaseHistory db cliente_id).map fun pr => pr.2).count category)
      rw [List.map_map] at hcast
      have hcomp2 : (Nat.cast ∘ fun category =>
          ((getClientPurchaseHistory db cliente_id).map fun pr => pr.2).count category) =
          fun category =>
            ((((getClientPurchaseHistory db cliente_id).map fun pr => pr.2).count
              category : ℕ) : ℚ) := rfl
      rw [hcomp2] at hcast
      rw [← hcast, List.sum_map_count_dedup_eq_length, List.length_map]
      exact div_self (by exact_mod_cast h0)

/-- Membership in the co-purchase join: exactly the products appearing in a
line item sharing a sale with a line item of the seed product. -/
theorem mem_relatedProductOccurrences {db : DB} {producto_id p : ℤ} :
    p ∈ relatedProductOccurrences db producto_id ↔
      ∃ d1 d2, d1 ∈ db.detalles ∧ d2 ∈ db.detalles ∧ d1.producto_id = producto_id ∧
        d2.venta_id = d1.venta_id ∧ d2.producto_id ≠ producto_id ∧
        d2.producto_id = p := by
  unfold relatedProductOccurrences ventasConProducto
  simp only [List.mem_flatMap, List.mem_map, List.mem_filter, Bool.and_eq_true,
    beq_iff_eq, bne_iff_ne]
  constructor
  · rintro ⟨v, ⟨d1, ⟨hd1, hpid⟩, hv⟩, d2, ⟨hd2, hvv, hne⟩, hp⟩
    exact ⟨d1, d2, hd1, hd2, hpid, by rw [hvv, hv], hne, hp⟩
  · rintro ⟨d1, d2, hd1, hd2, h1, h2, h3, h4⟩
    exact ⟨d1.venta_id, ⟨d1, ⟨hd1, h1⟩, rfl⟩, d2, ⟨hd2, h2, h3⟩, h4⟩

/-- The co-purchase join is empty exactly when no other product shares a
sale with the seed product. -/
theorem relatedProductOccurrences_nil_iff {db : DB} {producto_id : ℤ} :
    relatedProductOccurrences db producto_id = [] ↔
      ¬ ∃ d1 d2, d1 ∈ db.detalles ∧ d2 ∈ db.detalles ∧
        d1.producto_id = producto_id ∧ d2.venta_id = d1.venta_id ∧
        d2.producto_id ≠ producto_id := by
  rw [List.eq_nil_iff_forall_not_mem]
  constructor
  · rintro h ⟨d1, d2, hd1, hd2, h1, h2, h3⟩
    exact h d2.producto_id
      (mem_relatedProductOccurrences.mpr ⟨d1, d2, hd1, hd2, h1, h2, h3, rfl⟩)
  · intro h p hp
    obtain ⟨d1, d2, hd1, hd2, h1, h2, h3, _⟩ := mem_relatedProductOccurrences.mp hp
    exact h ⟨d1, d2, hd1, hd2, h1, h2, h3⟩

/-- The grouped, frequency-ordered result is empty exactly when the join
is empty. -/
theorem productosRelacionados_nil_iff {db : DB} {producto_id : ℤ} :
    productosRelacionados db producto_id = [] ↔
      relatedProductOccurrences db producto_id = [] := by
  unfold productosRelacionados
  constructor
  · intro h
    have hperm := sortKeyDesc_perm (fun pr : ℤ × ℕ => pr.2)
      ((relatedProductOccurrences db producto_id).dedup.map fun p =>
        (p, (relatedProductOccurrences db producto_id).count p))
    rw [h] at hperm
    have hmap := hperm.symm.eq_nil
    exact (List.dedup_eq_nil _).mp (List.map_eq_nil_iff.mp hmap)
  · intro h
    rw [h]
    rfl

/-- Members of the grouped result are exactly the deduplicated joined
product ids paired with their occurrence counts. -/
theorem mem_productosRelacionados {db : DB} {producto_id p : ℤ} {c : ℕ} :
    (p, c) ∈ productosRelacionados db producto_id ↔
      p ∈ (relatedProductOccurrences db producto_id).dedup ∧
      c = (relatedProductOccurrences db producto_id).count p := by
  unfold productosRelacionados
  rw [(sortKeyDesc_perm _ _).mem_iff, List.mem_map]
  constructor
  · rintro ⟨q, hq, heq⟩
    injection heq with e1 e2
    exact ⟨e1 ▸ hq, by rw [← e2, e1]⟩
  · rintro ⟨hp, rfl⟩
    exact ⟨p, hp, rfl⟩

/-- C6: `_get_frequently_bought_together` returns an empty result exactly
when no other product shares a sale with the seed; otherwise every returned
affinity is the product's co-occurrence count divided by the maximum count,
hence lies in `(0, 1]`, and some most-frequent co-purchased product attains
affinity exactly 1.0. -/
theorem frequently_bought_together_spec (db : DB) (producto_id : ℤ) :
    (getFrequentlyBoughtTogether db producto_id = [] ↔
      ¬ ∃ d1 d2, d1 ∈ db.detalles ∧ d2 ∈ db.detalles ∧
        d1.producto_id = producto_id ∧ d2.venta_id = d1.venta_id ∧
        d2.producto_id ≠ producto_id) ∧
    (∀ p a, (p, a) ∈ getFrequentlyBoughtTogether db producto_id →
      a = ((relatedProductOccurrences db producto_id).count p : ℚ) /
          (maxFrequency db producto_id : ℚ) ∧ 0 < a ∧ a ≤ 1) ∧
    (getFrequentlyBoughtTogether db producto_id ≠ [] →
      ∃ p, (p, (1 : ℚ)) ∈ getFrequentlyBoughtTogether db producto_id) := by
  refine ⟨?_, ?_, ?_⟩
  · unfold getFrequentlyBoughtTogether
    by_cases hrel : productosRelacionados db producto_id = []
    · rw [if_pos hrel]
      simp only [true_iff, eq_self_iff_true]
      exact relatedProductOccurrences_nil_iff.mp (productosRelacionados_nil_iff.mp hrel)
    · rw [if_neg hrel]
      refine iff_of_false (fun hmap => hrel (List.map_eq_nil_iff.mp hmap)) ?_
      intro hno
      exact hrel (productosRelacionados_nil_iff.mpr
        (relatedProductOccurrences_nil_iff.mpr hno))
  · intro p a hmem
    unfold getFrequentlyBoughtTogether at hmem
    split at hmem
    · exact absurd hmem (List.not_mem_nil _)
    · rename_i hrel
      obtain ⟨⟨q, c⟩, hqc, heq⟩ := List.mem_map.mp hmem
      injection heq with e1 e2
      obtain ⟨hq, hc⟩ := mem_productosRelacionados.mp hqc
      have hcount : 0 < (relatedProductOccurrences db producto_id).count q :=
        List.count_pos_iff.mpr (List.mem_dedup.mp hq)
      have hcmax : c ≤ maxFrequency db producto_id :=
        le_foldr_max (List.mem_map_of_mem (fun pr => pr.2) hqc)
      have hmaxpos : 0 < maxFrequency db producto_id := by
        have := hc ▸ hcount
        omega
      subst e1
      refine ⟨by rw [← e2, hc], ?_, ?_⟩
      · rw [← e2]
        exact div_pos (by exact_mod_cast hc ▸ hcount) (by exact_mod_cast hmaxpos)
      · rw [← e2]
        rw [div_le_one (by exact_mod_cast hmaxpos)]
        exact_mod_cast hcmax
  · intro hne
    unfold getFrequentlyBoughtTogether at hne ⊢
    by_cases hrel : productosRelacionados db producto_id = []
    · rw [if_pos hrel] at hne
      exact absurd rfl hne
    · rw [if_neg hrel] at hne ⊢
      have hcounts : (productosRelacionados db producto_id).map (fun pr => pr.2) ≠ [] := by
        intro hh
        exact hrel (List.map_eq_nil_iff.mp hh)
      have hmax_mem := foldr_max_mem _ hcounts
      obtain ⟨⟨p, c⟩, hpc, hceq⟩ := List.mem_map.mp hmax_mem
      obtain ⟨hp, hc⟩ := mem_productosRelacionados.mp hpc
      have hcount : 0 < (relatedProductOccurrences db producto_id).count p :=
        List.count_pos_iff.mpr (List.mem_dedup.mp hp)
      have hmaxne : (maxFrequency db producto_id : ℚ) ≠ 0 := by
        have : c = maxFrequency db producto_id := hceq
        have hpos : 0 < maxFrequency db producto_id := by omega
        exact_mod_cast Nat.pos_iff_ne_zero.mp hpos
      have hval : ((c : ℚ) / (maxFrequency db producto_id : ℚ)) = 1 := by
        rw [show (c : ℚ) = (maxFrequency db producto_id : ℚ) by exact_mod_cast hceq]
        exact div_self hmaxne
      refine ⟨p, List.mem_map.mpr ⟨(p, c), hpc, ?_⟩⟩
      simp [hval]

/-- A concrete database: one client who bought product 1, two in-stock
products (used as witness input). -/
def dbEjemplo : DB :=
  { clientes := [{ id := 1, nombre := "C", email := "c@x" }]
    productos := [
      { id := 1, nombre := "A", precio := 10, stock := 5, categoria := "cat1",
        ventas_ultimo_mes := 10, baja_rotacion := false },
      { id := 2, nombre := "B", precio := 20, stock := 5, categoria := "cat2",
        ventas_ultimo_mes := 0, baja_rotacion := false }]
    ventas := [{ id := 1, cliente_id := 1 }]
    detalles := [{ venta_id := 1, producto_id := 1, cantidad := 2 }]
    recomendaciones := [] }

/-- The recommendation list `generar_recomendaciones dbEjemplo 1 none 5`
returns: product 1 scores 0.4·1 + 0.3·(10/100) = 0.43, product 2 is clamped
to the 0.1 floor. -/
def recsEjemplo : List RecDict :=
  [{ producto_id := 1, nombre := "A", categoria := "cat1", precio := 10,
     score := 43/100, baja_rotacion := false },
   { producto_id := 2, nombre := "B", categoria := "cat2", precio := 20,
     score := 1/10, baja_rotacion := false }]

/-- The post-call database state for the `dbEjemplo` run: one persisted
`Recomendacion` row per returned item. -/
def dbEjemplo2 : DB :=
  { dbEjemplo with recomendaciones :=
    [{ cliente_id := 1, producto_recomendado_id := 1, score := 43/100, efectiva := false },
     { cliente_id := 1, producto_recomendado_id := 2, score := 1/10, efectiva := false }] }

/-- A concrete database with one client and no products (witness input). -/
def dbSoloCliente : DB :=
  { clientes := [{ id := 1, nombre := "C", email := "c@x" }]
    productos := [], ventas := [], detalles := [], recomendaciones := [] }

/-- C8: every successful call persists exactly one `Recomendacion` row per
returned item, appended to the table, carrying the customer id, the item's
product id, the item's score, and `efectiva = false`. -/
theorem persists_one_row_per_item (db : DB) (cliente_id : ℤ) (producto_id : Option ℤ)
    (limit : ℤ) (recs : List RecDict) (db2 : DB)
    (h : generar_recomendaciones db cliente_id producto_id limit = (Except.ok recs, db2)) :
    db2.recomendaciones = db.recomendaciones ++
      recs.map (fun rec =>
        { cliente_id := cliente_id
          producto_recomendado_id := rec.producto_id
          score := rec.score
          efectiva := false }) := by
  obtain ⟨-, hdb2, -⟩ := generarInner_ok db cliente_id producto_id limit recs db2
    (generar_ok_inner db cliente_id producto_id limit recs db2 h)
  rw [hdb2]

/-- C8 witness: the concrete successful run on `dbEjemplo` appends exactly
the two expected rows. -/
theorem persists_one_row_per_item_witness :
    dbEjemplo2.recomendaciones = dbEjemplo.recomendaciones ++
      recsEjemplo.map (fun rec =>
        { cliente_id := 1
          producto_recomendado_id := rec.producto_id
          score := rec.score
          efectiva := false }) :=
  persists_one_row_per_item dbEjemplo 1 none 5 recsEjemplo dbEjemplo2
    (by with_unfolding_all rfl)

/-- C5: under the interface-boundary assumptions (nonnegative limit, unique
product ids in the table), a successful call returns at most
`min(limit, 10)` items, sorted non-increasingly by score, with pairwise
distinct product ids; the returned list is a prefix of the stable descending
sort of the scored candidates, and that sort leaves score ties in
enumeration order. -/
theorem returned_list_sorted_bounded_unique (db : DB) (cliente_id : ℤ)
    (producto_id : Option ℤ) (limit : ℤ) (recs : List RecDict) (db2 : DB)
    (hlimit : 0 ≤ limit)
    (hids : (db.productos.map fun p => p.id).Nodup)
    (h : generar_recomendaciones db cliente_id producto_id limit = (Except.ok recs, db2)) :
    recs.length ≤ min limit.toNat 10 ∧
    recs.Pairwise (fun a b => b.score ≤ a.score) ∧
    (recs.map fun r => r.producto_id).Nodup ∧
    ∃ ca bts, seedData db producto_id = Except.ok (ca, bts) ∧
      recs = (sortKeyDesc (fun r => r.score)
        (scoredCandidates db cliente_id producto_id ca bts)).take (min limit.toNat 10) ∧
      ∀ s : ℚ, (sortKeyDesc (fun r => r.score)
          (scoredCandidates db cliente_id producto_id ca bts)).filter
            (fun r => decide (r.score = s)) =
        (scoredCandidates db cliente_id producto_id ca bts).filter
          (fun r => decide (r.score = s)) := by
  obtain ⟨-, -, ca, bts, hseed, hrecs⟩ :=
    generarInner_ok db cliente_id producto_id limit recs db2
      (generar_ok_inner db cliente_id producto_id limit recs db2 h)
  have hminnat : (min limit MAX_RECOMMENDATIONS).toNat = min limit.toNat 10 := by
    unfold MAX_RECOMMENDATIONS
    omega
  have hslice : recs = (sortKeyDesc (fun r => r.score)
      (scoredCandidates db cliente_id producto_id ca bts)).take (min limit.toNat 10) := by
    rw [hrecs, pySliceTo_nonneg (le_min hlimit (by norm_num [MAX_RECOMMENDATIONS])), hminnat]
  have hnodup_scored : ((scoredCandidates db cliente_id producto_id ca bts).map
      fun r => r.producto_id).Nodup := by
    have h1 : ((candidateProducts db producto_id).map fun p => p.id).Nodup :=
      List.Nodup.sublist ((candidateProducts_sublist db producto_id).map fun p => p.id) hids
    have h2 : ((scoredCandidates db cliente_id producto_id ca bts).map
        fun r => r.producto_id) = (candidateProducts db producto_id).map fun p => p.id := by
      unfold scoredCandidates
      rw [List.map_map]
      rfl
    rw [h2]
    exact h1
  refine ⟨?_, ?_, ?_, ca, bts, hseed, hslice, fun s => filter_sortKeyDesc _ s _⟩
  · rw [hslice]
    exact (List.length_take_le _ _).trans le_rfl
  · rw [hslice]
    exact List.Pairwise.sublist (List.take_sublist _ _) (pairwise_sortKeyDesc _ _)
  · rw [hslice, List.map_take]
    have hperm := (sortKeyDesc_perm (fun r : RecDict => r.score)
      (scoredCandidates db cliente_id producto_id ca bts)).map fun r => r.producto_id
    exact List.Nodup.sublist (List.take_sublist _ _) (hperm.nodup_iff.mpr hnodup_scored)

/-- C5 witness: the concrete successful run on `dbSoloCliente` with
limit 3. -/
theorem returned_list_sorted_bounded_unique_witness :
    ([] : List RecDict).length ≤ min ((3 : ℤ)).toNat 10 ∧
    ([] : List RecDict).Pairwise (fun a b => b.score ≤ a.score) ∧
    (([] : List RecDict).map fun r => r.producto_id).Nodup ∧
    ∃ ca bts, seedData dbSoloCliente none = Except.ok (ca, bts) ∧
      ([] : List RecDict) = (sortKeyDesc (fun r => r.score)
        (scoredCandidates dbSoloCliente 1 none ca bts)).take (min ((3 : ℤ)).toNat 10) ∧
      ∀ s : ℚ, (sortKeyDesc (fun r => r.score)
          (scoredCandidates dbSoloCliente 1 none ca bts)).filter
            (fun r => decide (r.score = s)) =
        (scoredCandidates dbSoloCliente 1 none ca bts).filter
          (fun r => decide (r.score = s)) :=
  returned_list_sorted_bounded_unique dbSoloCliente 1 none 3 [] dbSoloCliente
    (by norm_num) (by simp [dbSoloCliente]) (by with_unfolding_all rfl)

/-- C10: the service enforces no lower bound on `limit` — with a limit of 0
a successful call returns the empty list and leaves the database unchanged,
and with a negative limit the Python slice keeps all scored candidates
except the `|limit|` lowest-scored (last) ones instead of raising. -/
theorem limit_nonpositive_behaviour (db : DB) (cliente_id : ℤ)
    (producto_id : Option ℤ) (limit : ℤ) (recs : List RecDict) (db2 : DB)
    (h : generar_recomendaciones db cliente_id producto_id limit = (Except.ok recs, db2)) :
    (limit = 0 → recs = [] ∧ db2 = db) ∧
    (limit < 0 → ∃ ca bts, seedData db producto_id = Except.ok (ca, bts) ∧
      recs = (sortKeyDesc (fun r => r.score)
          (scoredCandidates db cliente_id producto_id ca bts)).take
        ((sortKeyDesc (fun r => r.score)
          (scoredCandidates db cliente_id producto_id ca bts)).length -
          (-limit).toNat)) := by
  obtain ⟨-, hdb2, ca, bts, hseed, hrecs⟩ :=
    generarInner_ok db cliente_id producto_id limit recs db2
      (generar_ok_inner db cliente_id producto_id limit recs db2 h)
  constructor
  · intro h0
    subst h0
    have hr : recs = [] := by
      rw [hrecs, pySliceTo_nonneg (le_min le_rfl (by norm_num [MAX_RECOMMENDATIONS]))]
      simp [MAX_RECOMMENDATIONS]
    refine ⟨hr, ?_⟩
    rw [hdb2, hr]
    simp
  · intro hneg
    refine ⟨ca, bts, hseed, ?_⟩
    have hmin : min limit MAX_RECOMMENDATIONS = limit := by
      unfold MAX_RECOMMENDATIONS
      omega
    rw [hrecs, hmin, pySliceTo_neg hneg]

/-- C10 witness: the concrete successful run on `dbSoloCliente` with
limit 0. -/
theorem limit_nonpositive_behaviour_witness :
    ((0 : ℤ) = 0 → ([] : List RecDict) = [] ∧ dbSoloCliente = dbSoloCliente) ∧
    ((0 : ℤ) < 0 → ∃ ca bts, seedData dbSoloCliente none = Except.ok (ca, bts) ∧
      ([] : List RecDict) = (sortKeyDesc (fun r => r.score)
          (scoredCandidates dbSoloCliente 1 none ca bts)).take
        ((sortKeyDesc (fun r => r.score)
          (scoredCandidates dbSoloCliente 1 none ca bts)).length -
          (-(0 : ℤ)).toNat)) :=
  limit_nonpositive_behaviour dbSoloCliente 1 none 0 [] dbSoloCliente
    (by with_unfolding_all rfl)
